import Mathlib

/- Verification of the matrixgl linear-algebra library
   (src/lib.es2015/vector_base.js, src/lib.es2015/matrix.js).
   The JavaScript number computations are embedded over exact real
   arithmetic: each Lean definition below transcribes the body of the
   corresponding source function. -/

namespace MatrixGL

noncomputable section

/-- Embedding of class `Float32Vector2` (fields x, y). -/
structure Float32Vector2 where
  x : ℝ
  y : ℝ

/-- Embedding of class `Float32Vector3` (fields x, y, z). -/
structure Float32Vector3 where
  x : ℝ
  y : ℝ
  z : ℝ

/-- Flat value list of a `Float32Vector3`, as stored in its `Float32Array`. -/
def Float32Vector3.values (v : Float32Vector3) : List ℝ :=
  [v.x, v.y, v.z]

/-- Source `VectorBase.magnitude`: square root of the sum of squares. -/
def Float32Vector3.magnitude (v : Float32Vector3) : ℝ :=
  Real.sqrt (v.x * v.x + v.y * v.y + v.z * v.z)

/-- Source `Float32Vector3.add`. -/
def Float32Vector3.add (v other : Float32Vector3) : Float32Vector3 :=
  ⟨v.x + other.x, v.y + other.y, v.z + other.z⟩

/-- Source `Float32Vector3.sub`. -/
def Float32Vector3.sub (v other : Float32Vector3) : Float32Vector3 :=
  ⟨v.x - other.x, v.y - other.y, v.z - other.z⟩

/-- Source `Float32Vector3.mulByScalar`. -/
def Float32Vector3.mulByScalar (v : Float32Vector3) (scalar : ℝ) : Float32Vector3 :=
  ⟨v.x * scalar, v.y * scalar, v.z * scalar⟩

/-- Source `Float32Vector3.dot`. -/
def Float32Vector3.dot (v other : Float32Vector3) : ℝ :=
  v.x * other.x + v.y * other.y + v.z * other.z

/-- Source `Float32Vector3.cross`. -/
def Float32Vector3.cross (v other : Float32Vector3) : Float32Vector3 :=
  ⟨v.y * other.z - v.z * other.y,
   v.z * other.x - v.x * other.z,
   v.x * other.y - v.y * other.x⟩

/-- Source `Float32Vector3.normalize`: returns the vector unchanged when its
magnitude is zero, otherwise divides each component by the magnitude. -/
def Float32Vector3.normalize (v : Float32Vector3) : Float32Vector3 :=
  if v.magnitude = 0 then v
  else ⟨v.x / v.magnitude, v.y / v.magnitude, v.z / v.magnitude⟩

/-- Source getter `Float32Vector3.xy`. -/
def Float32Vector3.xy (v : Float32Vector3) : Float32Vector2 :=
  ⟨v.x, v.y⟩

/-- Source getter `Float32Vector3.hom2cart`: divides by z, no zero guard. -/
def Float32Vector3.hom2cart (v : Float32Vector3) : Float32Vector2 :=
  ⟨v.x / v.z, v.y / v.z⟩

/-- Embedding of class `Quaternion` (fields x, y, z, w; w is the scalar part). -/
structure Quaternion where
  x : ℝ
  y : ℝ
  z : ℝ
  w : ℝ

/-- Flat value list of a `Quaternion`, as stored in its `Float32Array`. -/
def Quaternion.values (q : Quaternion) : List ℝ :=
  [q.x, q.y, q.z, q.w]

/-- Source `Quaternion.magnitude`. -/
def Quaternion.magnitude (q : Quaternion) : ℝ :=
  Real.sqrt (q.x * q.x + q.y * q.y + q.z * q.z + q.w * q.w)

/-- Source `Quaternion.normalize`: returns the quaternion unchanged when the
magnitude is zero, otherwise multiplies each component by `1 / magnitude`. -/
def Quaternion.normalize (q : Quaternion) : Quaternion :=
  if q.magnitude = 0 then q
  else
    let r := 1 / q.magnitude
    ⟨q.x * r, q.y * r, q.z * r, q.w * r⟩

/-- Source `Quaternion.add`. -/
def Quaternion.add (q other : Quaternion) : Quaternion :=
  ⟨q.x + other.x, q.y + other.y, q.z + other.z, q.w + other.w⟩

/-- Source `Quaternion.mulByScalar`. -/
def Quaternion.mulByScalar (q : Quaternion) (scalar : ℝ) : Quaternion :=
  ⟨q.x * scalar, q.y * scalar, q.z * scalar, q.w * scalar⟩

/-- Source `Quaternion.dot`. -/
def Quaternion.dot (q other : Quaternion) : ℝ :=
  q.x * other.x + q.y * other.y + q.z * other.z + q.w * other.w

/-- Options object accepted by `Quaternion.slerp`. -/
structure SlerpOptions where
  chooseShorterAngle : Bool

/-- Source `Quaternion.slerp`.  The mutable reassignment of `dotProd` and
`otherQuaternion` under `if (dotProd < 0)` is rendered as two conditionals on
the same test; the `options` argument is never read, exactly as in the source. -/
def Quaternion.slerp (q other : Quaternion) (t : ℝ) (options : SlerpOptions) :
    Quaternion :=
  let dotProd := q.dot other
  let adjustedDot := if dotProd < 0 then -dotProd else dotProd
  let otherQuaternion := if dotProd < 0 then other.mulByScalar (-1) else other
  let omega := Real.arccos adjustedDot
  let sinOmega := Real.sin omega
  let q1 := q.mulByScalar (Real.sin ((1 - t) * omega) / sinOmega)
  let q2 := otherQuaternion.mulByScalar (Real.sin (t * omega) / sinOmega)
  q1.add q2

/-- Embedding of class `Matrix3x3`.  The structure fields are listed in the
order of the source constructor arguments, which is column-major storage
order: m11, m21, m31 form the first column. -/
structure Matrix3x3 where
  m11 : ℝ
  m21 : ℝ
  m31 : ℝ
  m12 : ℝ
  m22 : ℝ
  m32 : ℝ
  m13 : ℝ
  m23 : ℝ
  m33 : ℝ

/-- Flat column-major value list of a `Matrix3x3`, as stored in its
`Float32Array`. -/
def Matrix3x3.values (m : Matrix3x3) : List ℝ :=
  [m.m11, m.m21, m.m31, m.m12, m.m22, m.m32, m.m13, m.m23, m.m33]

/-- Source static `Matrix3x3.identity`. -/
def Matrix3x3.identity : Matrix3x3 :=
  ⟨1, 0, 0, 0, 1, 0, 0, 0, 1⟩

/-- Source static `Matrix3x3.translation`. -/
def Matrix3x3.translation (tx ty : ℝ) : Matrix3x3 :=
  ⟨1, 0, 0, 0, 1, 0, tx, ty, 1⟩

/-- Source static `Matrix3x3.scaling`. -/
def Matrix3x3.scaling (sx sy : ℝ) : Matrix3x3 :=
  ⟨sx, 0, 0, 0, sy, 0, 0, 0, 1⟩

/-- Source static `Matrix3x3.rotation`. -/
def Matrix3x3.rotation (radian : ℝ) : Matrix3x3 :=
  ⟨Real.cos radian, Real.sin radian, 0,
   -Real.sin radian, Real.cos radian, 0,
   0, 0, 1⟩

/-- Source static `Matrix3x3.projectiveTransform`: homography sending the unit
square to the quadrilateral (x1,y1),(x2,y2),(x3,y3),(x4,y4). -/
def Matrix3x3.projectiveTransform (x1 y1 x2 y2 x3 y3 x4 y4 : ℝ) : Matrix3x3 :=
  let x2d := x2 - x1
  let y2d := y2 - y1
  let x3d := x3 - x1
  let y3d := y3 - y1
  let x4d := x4 - x1
  let y4d := y4 - y1
  let d123 := x2d * y3d - x3d * y2d
  let d124 := x2d * y4d - x4d * y2d
  let d134 := x3d * y4d - x4d * y3d
  let d1234 := d123 + d134
  let d234 := d1234 - d124
  let a1 := d134 * x2d
  let b1 := d123 * x4d
  let a2 := d134 * y2d
  let b2 := d123 * y4d
  let a0 := d134 - d234
  let b0 := d123 - d234
  let c0 := d234
  ⟨x1 * a0 + a1, y1 * a0 + a2, a0,
   x1 * b0 + b1, y1 * b0 + b2, b0,
   x1 * c0, y1 * c0, c0⟩

/-- Source static `Matrix3x3.projectiveInvTransform`: documented in the source
as the homography sending the quadrilateral (x1,y1),(x2,y2),(x3,y3),(x4,y4)
back to the unit square. -/
def Matrix3x3.projectiveInvTransform (x1 y1 x2 y2 x3 y3 x4 y4 : ℝ) : Matrix3x3 :=
  let x2d := x2 - x1
  let y2d := y2 - y1
  let x3d := x3 - x1
  let y3d := y3 - y1
  let x4d := x4 - x1
  let y4d := y4 - y1
  let d123 := x2d * y3d - x3d * y2d
  let d124 := x2d * y4d - x4d * y2d
  let d134 := x3d * y4d - x4d * y3d
  let d1234 := d123 + d134
  let d234 := d1234 - d124
  let d11 := d123 - d124
  let d22 := d134 - d124
  let a1 := -d123 * d234 * y4d
  let b1 := d123 * d234 * x4d
  let a2 := d134 * d234 * y2d
  let b2 := -d134 * d234 * x2d
  let a0 := d11 * d123 * y4d + d22 * d134 * y2d
  let b0 := d11 * d123 * x4d + d22 * d134 * x2d
  let c0 := -d123 * d124 * d134
  ⟨a1, a2, a0,
   b1, b2, b0,
   -a1 * x1 - b1 * y1, -a2 * x1 - b2 * y1, -a0 * x1 - b0 * y1 + c0⟩

/-- Source `Matrix3x3.mulByVector3` (matrix times column vector). -/
def Matrix3x3.mulByVector3 (m : Matrix3x3) (other : Float32Vector3) :
    Float32Vector3 :=
  ⟨(m.m11 * other.x) + (m.m12 * other.y) + (m.m13 * other.z),
   (m.m21 * other.x) + (m.m22 * other.y) + (m.m23 * other.z),
   (m.m31 * other.x) + (m.m32 * other.y) + (m.m33 * other.z)⟩

/-- Source `Matrix3x3.mulByMatrix3x3` (matrix product `this` times `other`). -/
def Matrix3x3.mulByMatrix3x3 (m other : Matrix3x3) : Matrix3x3 :=
  ⟨(m.m11 * other.m11) + (m.m12 * other.m21) + (m.m13 * other.m31),
   (m.m21 * other.m11) + (m.m22 * other.m21) + (m.m23 * other.m31),
   (m.m31 * other.m11) + (m.m32 * other.m21) + (m.m33 * other.m31),
   (m.m11 * other.m12) + (m.m12 * other.m22) + (m.m13 * other.m32),
   (m.m21 * other.m12) + (m.m22 * other.m22) + (m.m23 * other.m32),
   (m.m31 * other.m12) + (m.m32 * other.m22) + (m.m33 * other.m32),
   (m.m11 * other.m13) + (m.m12 * other.m23) + (m.m13 * other.m33),
   (m.m21 * other.m13) + (m.m22 * other.m23) + (m.m23 * other.m33),
   (m.m31 * other.m13) + (m.m32 * other.m23) + (m.m33 * other.m33)⟩

/-- Source `Matrix3x3.mulByMatrix3`, an alias for `mulByMatrix3x3`. -/
def Matrix3x3.mulByMatrix3 (m other : Matrix3x3) : Matrix3x3 :=
  m.mulByMatrix3x3 other

/-- Source `Matrix3x3.translate`. -/
def Matrix3x3.translate (m : Matrix3x3) (tx ty : ℝ) : Matrix3x3 :=
  m.mulByMatrix3x3 (Matrix3x3.translation tx ty)

/-- Source `Matrix3x3.scale`. -/
def Matrix3x3.scale (m : Matrix3x3) (sx sy : ℝ) : Matrix3x3 :=
  m.mulByMatrix3x3 (Matrix3x3.scaling sx sy)

/-- Source `Matrix3x3.rotate`. -/
def Matrix3x3.rotate (m : Matrix3x3) (radian : ℝ) : Matrix3x3 :=
  m.mulByMatrix3x3 (Matrix3x3.rotation radian)

/-- Embedding of class `Matrix4x4`.  Fields in source constructor order,
which is column-major storage order. -/
structure Matrix4x4 where
  m11 : ℝ
  m21 : ℝ
  m31 : ℝ
  m41 : ℝ
  m12 : ℝ
  m22 : ℝ
  m32 : ℝ
  m42 : ℝ
  m13 : ℝ
  m23 : ℝ
  m33 : ℝ
  m43 : ℝ
  m14 : ℝ
  m24 : ℝ
  m34 : ℝ
  m44 : ℝ

/-- Flat column-major value list of a `Matrix4x4`, as stored in its
`Float32Array`. -/
def Matrix4x4.values (m : Matrix4x4) : List ℝ :=
  [m.m11, m.m21, m.m31, m.m41, m.m12, m.m22, m.m32, m.m42,
   m.m13, m.m23, m.m33, m.m43, m.m14, m.m24, m.m34, m.m44]

/-- Source static `Matrix4x4.identity`. -/
def Matrix4x4.identity : Matrix4x4 :=
  ⟨1, 0, 0, 0, 0, 1, 0, 0, 0, 0, 1, 0, 0, 0, 0, 1⟩

/-- Source static `Matrix4x4.translation`. -/
def Matrix4x4.translation (tx ty tz : ℝ) : Matrix4x4 :=
  ⟨1, 0, 0, 0, 0, 1, 0, 0, 0, 0, 1, 0, tx, ty, tz, 1⟩

/-- Source static `Matrix4x4.scaling`. -/
def Matrix4x4.scaling (sx sy sz : ℝ) : Matrix4x4 :=
  ⟨sx, 0, 0, 0, 0, sy, 0, 0, 0, 0, sz, 0, 0, 0, 0, 1⟩

/-- Source static `Matrix4x4.rotationX`. -/
def Matrix4x4.rotationX (radian : ℝ) : Matrix4x4 :=
  ⟨1, 0, 0, 0,
   0, Real.cos radian, Real.sin radian, 0,
   0, -Real.sin radian, Real.cos radian, 0,
   0, 0, 0, 1⟩

/-- Source static `Matrix4x4.rotationY`. -/
def Matrix4x4.rotationY (radian : ℝ) : Matrix4x4 :=
  ⟨Real.cos radian, 0, -Real.sin radian, 0,
   0, 1, 0, 0,
   Real.sin radian, 0, Real.cos radian, 0,
   0, 0, 0, 1⟩

/-- Source static `Matrix4x4.rotationZ`. -/
def Matrix4x4.rotationZ (radian : ℝ) : Matrix4x4 :=
  ⟨Real.cos radian, Real.sin radian, 0, 0,
   -Real.sin radian, Real.cos radian, 0, 0,
   0, 0, 1, 0,
   0, 0, 0, 1⟩

/-- Source static `Matrix4x4.lookAt`. -/
def Matrix4x4.lookAt (cameraPosition lookAtPosition cameraUp : Float32Vector3) :
    Matrix4x4 :=
  let zAxis := (cameraPosition.sub lookAtPosition).normalize
  let xAxis := (cameraUp.cross zAxis).normalize
  let yAxis := (zAxis.cross xAxis).normalize
  ⟨xAxis.x, yAxis.x, zAxis.x, 0,
   xAxis.y, yAxis.y, zAxis.y, 0,
   xAxis.z, yAxis.z, zAxis.z, 0,
   -(cameraPosition.dot xAxis), -(cameraPosition.dot yAxis),
   -(cameraPosition.dot zAxis), 1⟩

/-- Argument object of `Matrix4x4.frustum` and `Matrix4x4.orthographic`. -/
structure FrustumArgs where
  top : ℝ
  bottom : ℝ
  left : ℝ
  right : ℝ
  near : ℝ
  far : ℝ

/-- Argument object of `Matrix4x4.perspective`. -/
structure PerspectiveArgs where
  fovYRadian : ℝ
  aspectRatio : ℝ
  near : ℝ
  far : ℝ

/-- Source static `Matrix4x4.frustum`. -/
def Matrix4x4.frustum (a : FrustumArgs) : Matrix4x4 :=
  ⟨2 * a.near / (a.right - a.left), 0, 0, 0,
   0, 2 * a.near / (a.top - a.bottom), 0, 0,
   (a.right + a.left) / (a.right - a.left),
   (a.top + a.bottom) / (a.top - a.bottom),
   -(a.far + a.near) / (a.far - a.near), -1,
   0, 0, -2 * a.far * a.near / (a.far - a.near), 0⟩

/-- Source static `Matrix4x4.perspective`: derives frustum bounds from the
field of view and aspect ratio, then delegates to `frustum`. -/
def Matrix4x4.perspective (a : PerspectiveArgs) : Matrix4x4 :=
  let top := a.near * Real.tan (a.fovYRadian * 0.5)
  let height := top * 2
  let width := a.aspectRatio * height
  let left := -0.5 * width
  let right := left + width
  let bottom := top - height
  Matrix4x4.frustum ⟨top, bottom, left, right, a.near, a.far⟩

/-- Source `Matrix4x4.mulByVector4` would act on `Float32Vector4`; it is not
needed by the claims below.  Source `Matrix4x4.mulByMatrix4x4` (matrix product
`this` times `other`). -/
def Matrix4x4.mulByMatrix4x4 (m other : Matrix4x4) : Matrix4x4 :=
  ⟨(m.m11 * other.m11) + (m.m12 * other.m21) + (m.m13 * other.m31) + (m.m14 * other.m41),
   (m.m21 * other.m11) + (m.m22 * other.m21) + (m.m23 * other.m31) + (m.m24 * other.m41),
   (m.m31 * other.m11) + (m.m32 * other.m21) + (m.m33 * other.m31) + (m.m34 * other.m41),
   (m.m41 * other.m11) + (m.m42 * other.m21) + (m.m43 * other.m31) + (m.m44 * other.m41),
   (m.m11 * other.m12) + (m.m12 * other.m22) + (m.m13 * other.m32) + (m.m14 * other.m42),
   (m.m21 * other.m12) + (m.m22 * other.m22) + (m.m23 * other.m32) + (m.m24 * other.m42),
   (m.m31 * other.m12) + (m.m32 * other.m22) + (m.m33 * other.m32) + (m.m34 * other.m42),
   (m.m41 * other.m12) + (m.m42 * other.m22) + (m.m43 * other.m32) + (m.m44 * other.m42),
   (m.m11 * other.m13) + (m.m12 * other.m23) + (m.m13 * other.m33) + (m.m14 * other.m43),
   (m.m21 * other.m13) + (m.m22 * other.m23) + (m.m23 * other.m33) + (m.m24 * other.m43),
   (m.m31 * other.m13) + (m.m32 * other.m23) + (m.m33 * other.m33) + (m.m34 * other.m43),
   (m.m41 * other.m13) + (m.m42 * other.m23) + (m.m43 * other.m33) + (m.m44 * other.m43),
   (m.m11 * other.m14) + (m.m12 * other.m24) + (m.m13 * other.m34) + (m.m14 * other.m44),
   (m.m21 * other.m14) + (m.m22 * other.m24) + (m.m23 * other.m34) + (m.m24 * other.m44),
   (m.m31 * other.m14) + (m.m32 * other.m24) + (m.m33 * other.m34) + (m.m34 * other.m44),
   (m.m41 * other.m14) + (m.m42 * other.m24) + (m.m43 * other.m34) + (m.m44 * other.m44)⟩

/-- Source `Matrix4x4.mulByMatrix4`, an alias for `mulByMatrix4x4`. -/
def Matrix4x4.mulByMatrix4 (m other : Matrix4x4) : Matrix4x4 :=
  m.mulByMatrix4x4 other

/-- Source `Matrix4x4.translate`. -/
def Matrix4x4.translate (m : Matrix4x4) (tx ty tz : ℝ) : Matrix4x4 :=
  m.mulByMatrix4x4 (Matrix4x4.translation tx ty tz)

/-- Source `Matrix4x4.scale`. -/
def Matrix4x4.scale (m : Matrix4x4) (sx sy sz : ℝ) : Matrix4x4 :=
  m.mulByMatrix4x4 (Matrix4x4.scaling sx sy sz)

/-- Source `Matrix4x4.rotateX`. -/
def Matrix4x4.rotateX (m : Matrix4x4) (radian : ℝ) : Matrix4x4 :=
  m.mulByMatrix4x4 (Matrix4x4.rotationX radian)

/-- Source `Matrix4x4.rotateY`. -/
def Matrix4x4.rotateY (m : Matrix4x4) (radian : ℝ) : Matrix4x4 :=
  m.mulByMatrix4x4 (Matrix4x4.rotationY radian)

/-- Source `Matrix4x4.rotateZ`. -/
def Matrix4x4.rotateZ (m : Matrix4x4) (radian : ℝ) : Matrix4x4 :=
  m.mulByMatrix4x4 (Matrix4x4.rotationZ radian)

/-- Convexity precondition stated in the source comments of
`projectiveTransform` and `projectiveInvTransform`: the four signed
determinants computed from coordinates translated relative to point 1 must
share the same non-zero sign. -/
def sameSignDets (x1 y1 x2 y2 x3 y3 x4 y4 : ℝ) : Prop :=
  let d123 := (x2 - x1) * (y3 - y1) - (x3 - x1) * (y2 - y1)
  let d124 := (x2 - x1) * (y4 - y1) - (x4 - x1) * (y2 - y1)
  let d134 := (x3 - x1) * (y4 - y1) - (x4 - x1) * (y3 - y1)
  let d234 := d123 + d134 - d124
  (0 < d123 ∧ 0 < d124 ∧ 0 < d134 ∧ 0 < d234) ∨
    (d123 < 0 ∧ d124 < 0 ∧ d134 < 0 ∧ d234 < 0)

end

/-- Member names of class `Matrix2x2`, transcribed from the es2015 source and
the TypeScript declaration file: only the constructor, the static `identity`
factory, the `values` getter and `toString` exist. -/
def Matrix2x2Members : List String :=
  ["constructor", "identity", "values", "toString"]

/-- Member names of class `Matrix3x3`, transcribed from the es2015 source and
the TypeScript declaration file. -/
def Matrix3x3Members : List String :=
  ["constructor", "identity", "translation", "scaling", "rotation",
   "projectiveTransform", "projectiveInvTransform", "mulByVector3",
   "mulByMatrix3x3", "mulByMatrix3", "translate", "scale", "rotate",
   "values", "toString"]

/-- Member names of class `Matrix4x4`, transcribed from the es2015 source and
the TypeScript declaration file. -/
def Matrix4x4Members : List String :=
  ["constructor", "identity", "translation", "scaling", "rotationX",
   "rotationY", "rotationZ", "rotationAround", "lookAt", "orthographic",
   "frustum", "perspective", "mulByVector4", "mulByMatrix4x4", "mulByMatrix4",
   "translate", "scale", "rotateX", "rotateY", "rotateZ", "rotateAround",
   "values", "toString"]

theorem Float32Vector3.vec3_magnitude_mk_zero :
    (Float32Vector3.mk 0 0 0).magnitude = 0 := by
  simp [Float32Vector3.magnitude]

theorem Float32Vector3.normalize_mk_zero :
    (Float32Vector3.mk 0 0 0).normalize = Float32Vector3.mk 0 0 0 := by
  rw [Float32Vector3.normalize, if_pos Float32Vector3.vec3_magnitude_mk_zero]

theorem Float32Vector3.cross_mk_zero (v : Float32Vector3) :
    v.cross (Float32Vector3.mk 0 0 0) = Float32Vector3.mk 0 0 0 := by
  simp [Float32Vector3.cross]

theorem Float32Vector3.dot_mk_zero (v : Float32Vector3) :
    v.dot (Float32Vector3.mk 0 0 0) = 0 := by
  simp [Float32Vector3.dot]

theorem Quaternion.quat_magnitude_mk_zero :
    (Quaternion.mk 0 0 0 0).magnitude = 0 := by
  simp [Quaternion.magnitude]

/-- C1: `Quaternion.slerp` computes `d = q1.dot q2`; when `d < 0` it replaces
`q2` by `q2.mulByScalar (-1)` and `d` by `-d`; with `omega = arccos d` it
returns `q1 * (sin ((1-t)*omega) / sin omega) + q2' * (sin (t*omega) / sin
omega)` componentwise, and the result is identical for every value of
`options.chooseShorterAngle`. -/
theorem slerp_shorter_arc_formula_and_options_inert
    (q1 q2 : Quaternion) (t : ℝ) (opts opts' : SlerpOptions) :
    q1.slerp q2 t opts =
      (let d := q1.dot q2
       let d' := if d < 0 then -d else d
       let q2' := if d < 0 then q2.mulByScalar (-1) else q2
       let omega := Real.arccos d'
       (q1.mulByScalar (Real.sin ((1 - t) * omega) / Real.sin omega)).add
         (q2'.mulByScalar (Real.sin (t * omega) / Real.sin omega))) ∧
    q1.slerp q2 t opts = q1.slerp q2 t opts' :=
  ⟨rfl, rfl⟩

/-- C2 (code bug): at the convex quadrilateral (0,0),(2,0),(3,2),(0,1) — its
four signed determinants are 4, 2, 3, 5, all positive — the round trip of the
interior point (1/2, 1/2) through `projectiveTransform` and then
`projectiveInvTransform` returns (5/4, 5/4) instead of (1/2, 1/2), an error of
3/4, far above the 1e-3 tolerance; `projectiveInvTransform` does not invert
`projectiveTransform`, contradicting its own doc comment. -/
theorem projective_roundtrip_counterexample :
    sameSignDets 0 0 2 0 3 2 0 1 ∧
    ((Matrix3x3.projectiveInvTransform 0 0 2 0 3 2 0 1).mulByVector3
        ((Matrix3x3.projectiveTransform 0 0 2 0 3 2 0 1).mulByVector3
          ⟨1 / 2, 1 / 2, 1⟩)).hom2cart = ⟨5 / 4, 5 / 4⟩ ∧
    ¬((5 / 4 : ℝ) - 1 / 2 ≤ 1 / 1000) := by
  refine ⟨by norm_num [sameSignDets], ?_, by norm_num⟩
  norm_num [Matrix3x3.projectiveTransform, Matrix3x3.projectiveInvTransform,
    Matrix3x3.mulByVector3, Float32Vector3.hom2cart]

/-- Supporting fact for the diagnosis of the projective pair: at the convex
quadrilateral (0,0),(2,0),(3,2),(0,1), `projectiveTransform` maps the four
unit-square corners onto the quadrilateral corners as documented, while
`projectiveInvTransform` sends the quadrilateral corner (2,0) to (5,0) rather
than to the documented unit-square corner (1,0) — the slip is in the inverse
construction, not in the forward one. -/
theorem projective_corner_check :
    ((Matrix3x3.projectiveTransform 0 0 2 0 3 2 0 1).mulByVector3
      ⟨0, 0, 1⟩).hom2cart = ⟨0, 0⟩ ∧
    ((Matrix3x3.projectiveTransform 0 0 2 0 3 2 0 1).mulByVector3
      ⟨1, 0, 1⟩).hom2cart = ⟨2, 0⟩ ∧
    ((Matrix3x3.projectiveTransform 0 0 2 0 3 2 0 1).mulByVector3
      ⟨1, 1, 1⟩).hom2cart = ⟨3, 2⟩ ∧
    ((Matrix3x3.projectiveTransform 0 0 2 0 3 2 0 1).mulByVector3
      ⟨0, 1, 1⟩).hom2cart = ⟨0, 1⟩ ∧
    ((Matrix3x3.projectiveInvTransform 0 0 2 0 3 2 0 1).mulByVector3
      ⟨2, 0, 1⟩).hom2cart = ⟨5, 0⟩ := by
  refine ⟨?_, ?_, ?_, ?_, ?_⟩ <;>
    norm_num [Matrix3x3.projectiveTransform, Matrix3x3.projectiveInvTransform,
      Matrix3x3.mulByVector3, Float32Vector3.hom2cart]

/-- C3: `Matrix4x4.lookAt eye target up` is built from `zAxis = normalize (eye
- target)`, `xAxis = normalize (cross up zAxis)`, `yAxis = normalize (cross
zAxis xAxis)`: the rotation rows are xAxis, yAxis, zAxis, the fourth column is
`(-eye.dot xAxis, -eye.dot yAxis, -eye.dot zAxis, 1)`, and the rest of the
fourth row is zero. -/
theorem lookAt_view_basis (eye target up : Float32Vector3) :
    (let zAxis := (eye.sub target).normalize
     let xAxis := (up.cross zAxis).normalize
     let yAxis := (zAxis.cross xAxis).normalize
     let m := Matrix4x4.lookAt eye target up
     (m.m11 = xAxis.x ∧ m.m12 = xAxis.y ∧ m.m13 = xAxis.z) ∧
     (m.m21 = yAxis.x ∧ m.m22 = yAxis.y ∧ m.m23 = yAxis.z) ∧
     (m.m31 = zAxis.x ∧ m.m32 = zAxis.y ∧ m.m33 = zAxis.z) ∧
     (m.m14 = -(eye.dot xAxis) ∧ m.m24 = -(eye.dot yAxis) ∧
      m.m34 = -(eye.dot zAxis) ∧ m.m44 = 1) ∧
     (m.m41 = 0 ∧ m.m42 = 0 ∧ m.m43 = 0)) := by
  exact ⟨⟨rfl, rfl, rfl⟩, ⟨rfl, rfl, rfl⟩, ⟨rfl, rfl, rfl⟩,
    ⟨rfl, rfl, rfl, rfl⟩, ⟨rfl, rfl, rfl⟩⟩

/-- C4: `normalize` returns the receiver unchanged when the magnitude is
exactly zero (in particular `Quaternion(0,0,0,0).normalize().values` is
`[0,0,0,0]`), and otherwise returns the value divided componentwise by its
magnitude, for `Float32Vector3` and for `Quaternion`. -/
theorem normalize_zero_guard (v w : Float32Vector3) (q p : Quaternion)
    (hv : v.magnitude = 0) (hw : w.magnitude ≠ 0)
    (hq : q.magnitude = 0) (hp : p.magnitude ≠ 0) :
    v.normalize = v ∧
    w.normalize = ⟨w.x / w.magnitude, w.y / w.magnitude, w.z / w.magnitude⟩ ∧
    q.normalize = q ∧
    p.normalize = ⟨p.x / p.magnitude, p.y / p.magnitude, p.z / p.magnitude,
      p.w / p.magnitude⟩ ∧
    (Quaternion.mk 0 0 0 0).normalize.values = [0, 0, 0, 0] := by
  refine ⟨?_, ?_, ?_, ?_, ?_⟩
  · simp only [Float32Vector3.normalize]
    rw [if_pos hv]
  · simp only [Float32Vector3.normalize]
    rw [if_neg hw]
  · simp only [Quaternion.normalize]
    rw [if_pos hq]
  · simp only [Quaternion.normalize]
    rw [if_neg hp]
    simp [div_eq_mul_inv]
  · simp [Quaternion.normalize, Quaternion.quat_magnitude_mk_zero, Quaternion.values]

/-- Witness for C4 at the zero vector, the vector (1,2,2) of magnitude 3, the
zero quaternion and the quaternion (1,2,2,4) of magnitude 5. -/
theorem normalize_zero_guard_witness :
    (Float32Vector3.mk 0 0 0).normalize = Float32Vector3.mk 0 0 0 ∧
    (Float32Vector3.mk 1 2 2).normalize =
      ⟨1 / (Float32Vector3.mk 1 2 2).magnitude,
       2 / (Float32Vector3.mk 1 2 2).magnitude,
       2 / (Float32Vector3.mk 1 2 2).magnitude⟩ ∧
    (Quaternion.mk 0 0 0 0).normalize = Quaternion.mk 0 0 0 0 ∧
    (Quaternion.mk 1 2 2 4).normalize =
      ⟨1 / (Quaternion.mk 1 2 2 4).magnitude,
       2 / (Quaternion.mk 1 2 2 4).magnitude,
       2 / (Quaternion.mk 1 2 2 4).magnitude,
       4 / (Quaternion.mk 1 2 2 4).magnitude⟩ ∧
    (Quaternion.mk 0 0 0 0).normalize.values = [0, 0, 0, 0] :=
  normalize_zero_guard (Float32Vector3.mk 0 0 0) (Float32Vector3.mk 1 2 2)
    (Quaternion.mk 0 0 0 0) (Quaternion.mk 1 2 2 4)
    (by simp [Float32Vector3.magnitude])
    (by norm_num [Float32Vector3.magnitude, Real.sqrt_ne_zero'])
    (by simp [Quaternion.magnitude])
    (by norm_num [Quaternion.magnitude, Real.sqrt_ne_zero'])

/-- C5: `Matrix4x4.perspective` returns exactly `Matrix4x4.frustum` applied to
the bounds derived from the field of view and the aspect ratio: `top = near *
tan (fovYRadian * 0.5)`, `height = 2 * top`, `width = aspectRatio * height`,
`left = -0.5 * width`, `right = left + width`, `bottom = top - height`;
equivalently `bottom = -top` and `right = -left = aspectRatio * top`. -/
theorem perspective_delegates_to_frustum (fovYRadian aspectRatio near far : ℝ) :
    (Matrix4x4.perspective ⟨fovYRadian, aspectRatio, near, far⟩ =
      (let top := near * Real.tan (fovYRadian * 0.5)
       let height := 2 * top
       let width := aspectRatio * height
       let left := -0.5 * width
       let right := left + width
       let bottom := top - height
       Matrix4x4.frustum ⟨top, bottom, left, right, near, far⟩)) ∧
    (Matrix4x4.perspective ⟨fovYRadian, aspectRatio, near, far⟩ =
      (let top := near * Real.tan (fovYRadian * 0.5)
       Matrix4x4.frustum ⟨top, -top, -(aspectRatio * top),
         aspectRatio * top, near, far⟩)) := by
  constructor <;>
  · simp only [Matrix4x4.perspective]
    congr 1
    simp only [FrustumArgs.mk.injEq]
    refine ⟨by ring_nf, by ring_nf, by ring_nf, by ring_nf, trivial, trivial⟩

/-- C6: each composition helper is the right-multiplication by the matching
factory matrix, for `Matrix4x4` and for `Matrix3x3`. -/
theorem compose_helpers_are_right_multiplications
    (A : Matrix4x4) (B : Matrix3x3) (tx ty tz sx sy sz radian : ℝ) :
    A.translate tx ty tz = A.mulByMatrix4x4 (Matrix4x4.translation tx ty tz) ∧
    A.scale sx sy sz = A.mulByMatrix4x4 (Matrix4x4.scaling sx sy sz) ∧
    A.rotateX radian = A.mulByMatrix4x4 (Matrix4x4.rotationX radian) ∧
    A.rotateY radian = A.mulByMatrix4x4 (Matrix4x4.rotationY radian) ∧
    A.rotateZ radian = A.mulByMatrix4x4 (Matrix4x4.rotationZ radian) ∧
    B.translate tx ty = B.mulByMatrix3x3 (Matrix3x3.translation tx ty) ∧
    B.scale sx sy = B.mulByMatrix3x3 (Matrix3x3.scaling sx sy) ∧
    B.rotate radian = B.mulByMatrix3x3 (Matrix3x3.rotation radian) :=
  ⟨rfl, rfl, rfl, rfl, rfl, rfl, rfl, rfl⟩

/-- C7: multiplying by the identity on either side returns the matrix
unchanged, exactly, for `Matrix3x3` and `Matrix4x4`. -/
theorem identity_mul_laws (M : Matrix4x4) (B : Matrix3x3) :
    Matrix4x4.identity.mulByMatrix4x4 M = M ∧
    M.mulByMatrix4x4 Matrix4x4.identity = M ∧
    Matrix3x3.identity.mulByMatrix3x3 B = B ∧
    B.mulByMatrix3x3 Matrix3x3.identity = B := by
  obtain ⟨b11, b21, b31, b12, b22, b32, b13, b23, b33⟩ := B
  obtain ⟨n11, n21, n31, n41, n12, n22, n32, n42,
    n13, n23, n33, n43, n14, n24, n34, n44⟩ := M
  refine ⟨?_, ?_, ?_, ?_⟩ <;>
    simp [Matrix4x4.mulByMatrix4x4, Matrix4x4.identity,
      Matrix3x3.mulByMatrix3x3, Matrix3x3.identity]

/-- C9 (counterexample to the claim): class `Matrix2x2` has no matrix-matrix
and no matrix-vector multiplication member, so `Matrix2x2` values cannot be
multiplied by another `Matrix2x2` or by a 2-component vector. -/
theorem matrix2x2_has_no_multiplication :
    "mulByMatrix2x2" ∉ Matrix2x2Members ∧
    "mulByMatrix2" ∉ Matrix2x2Members ∧
    "mulByVector2" ∉ Matrix2x2Members := by
  decide

/-- C9 (amended): `Matrix3x3` and `Matrix4x4` provide both matrix-matrix and
matrix-vector multiplication members, while `Matrix2x2` provides neither. -/
theorem matrix_multiplication_surface :
    "mulByMatrix3x3" ∈ Matrix3x3Members ∧ "mulByVector3" ∈ Matrix3x3Members ∧
    "mulByMatrix4x4" ∈ Matrix4x4Members ∧ "mulByVector4" ∈ Matrix4x4Members ∧
    "mulByMatrix2x2" ∉ Matrix2x2Members ∧ "mulByVector2" ∉ Matrix2x2Members := by
  decide

/-- C10: when the camera position equals the look-at target, the zero-guard in
`normalize` makes all three axes the zero vector and `Matrix4x4.lookAt`
returns the matrix whose entries are all zero except entry (4,4), which is 1;
in particular no entry is left undefined by a division by zero. -/
theorem lookAt_same_eye_target (eye target up : Float32Vector3)
    (h : eye = target) :
    Matrix4x4.lookAt eye target up =
      Matrix4x4.mk 0 0 0 0 0 0 0 0 0 0 0 0 0 0 0 1 := by
  subst h
  simp [Matrix4x4.lookAt, Float32Vector3.sub, sub_self,
    Float32Vector3.normalize_mk_zero, Float32Vector3.cross_mk_zero,
    Float32Vector3.dot_mk_zero]

/-- Witness for C10 at eye = target = (1,2,3) and up = (0,1,0). -/
theorem lookAt_same_eye_target_witness :
    Matrix4x4.lookAt ⟨1, 2, 3⟩ ⟨1, 2, 3⟩ ⟨0, 1, 0⟩ =
      Matrix4x4.mk 0 0 0 0 0 0 0 0 0 0 0 0 0 0 0 1 :=
  lookAt_same_eye_target ⟨1, 2, 3⟩ ⟨1, 2, 3⟩ ⟨0, 1, 0⟩ rfl

end MatrixGL

